/-
Verification of the cherrymusic storage and artwork core against its
specification.

The development shallowly embeds the two source files:
  * `storage/models.py` — Directory / File / Artist / Album / Genre / MetaData
    models, the tree reconciler `Directory.reindex`, the lazy path resolver
    `Directory.get_sub_path_directories`, metadata extraction
    `MetaData.create_from_path`, and the entity dedup helpers.
  * `api/views.py` — the artwork fallback chain `AlbumArtView.get`.

The filesystem is modelled as a tree of named entries (`FSTree`), the Django
database as explicit relational state (`DB` for Directory/File rows, `MDB` for
the metadata entities).  Django query-set operations become list operations on
that state; Python exceptions become `Except` results.  Collaborators that are
not part of the two source files (the tag reader, the artwork fetcher, the
cache path derivation, `normalize_name`) are modelled from the specification
and are marked as such in their doc comments.
-/
import Mathlib

/-! ## Python string primitives

The source relies on Python `str.lower`, `str.strip`, `int(...)` parsing and
string truthiness.  These are modelled on the character-list representation of
`String` so that all definitions reduce inside the kernel. -/

/-- ASCII case folding of a single character (the extensions and names the
source compares are ASCII; Python `str.lower` restricted to ASCII). -/
def lowerChar (c : Char) : Char :=
  if 65 ≤ c.toNat && c.toNat ≤ 90 then Char.ofNat (c.toNat + 32) else c

/-- Python `str.lower` (ASCII fragment). -/
def pyLower (s : String) : String :=
  String.mk (s.data.map lowerChar)

/-- `suffix` is a suffix of `l` (Python `str.endswith` on char lists). -/
def listIsSuffix (suffix l : List Char) : Bool :=
  suffix == l.drop (l.length - suffix.length)

/-- Python `str.endswith`. -/
def pyEndsWith (s suffix : String) : Bool :=
  listIsSuffix suffix.data s.data

/-- Python truthiness of an optional string (`None` and `""` are falsy). -/
def pyTruthy : Option String → Bool
  | none => false
  | some s => s != ""

/-- Split a character list into maximal whitespace-free words. -/
def charWords : List Char → List Char → List (List Char)
  | [], [] => []
  | [], w => [w.reverse]
  | c :: cs, w =>
    if c.isWhitespace then
      match w with
      | [] => charWords cs []
      | _ => w.reverse :: charWords cs []
    else charWords cs (c :: w)

/-- Modelled from the spec: `utils.natural_language.normalize_name` is not
part of the two source files.  Section 4.1 of the spec specifies a
deterministic, pure, locale-insensitive folding (case folding and whitespace
collapse) with empty and whitespace-only input normalizing to the empty
value.  Modelled as: lowercase, then collapse whitespace runs to single
spaces and trim. -/
def normalize_name (s : String) : String :=
  String.mk (List.intercalate [' '] (charWords (s.data.map lowerChar) []))

/-- Value of a non-empty digit run. -/
def digitsToNat (l : List Char) : Nat :=
  l.foldl (fun n c => 10 * n + (c.toNat - 48)) 0

/-- Python `int(s)` on a string: surrounding whitespace is ignored, an
optional single sign is allowed, and the remainder must be a non-empty digit
run; any other input raises `ValueError` (modelled as `none`). -/
def pyInt? (s : String) : Option Int :=
  let t := ((s.data.dropWhile Char.isWhitespace).reverse.dropWhile Char.isWhitespace).reverse
  let signed : Bool × List Char :=
    match t with
    | '-' :: rest => (true, rest)
    | '+' :: rest => (false, rest)
    | _ => (false, t)
  let digits := signed.2
  if digits != [] && digits.all Char.isDigit then
    some (if signed.1 then -(digitsToNat digits : Int) else (digitsToNat digits : Int))
  else
    none

/-- Python error kinds surfaced by the embedded metadata extractor. -/
inductive PyErr where
  | valueError
deriving DecidableEq, Repr

/-- The translation of `int(field) if field else None` as it appears in
`MetaData.create_from_path` (models.py lines 192, 193, 197): a falsy field
(absent or empty) yields `None`; a non-empty field is passed to `int`, whose
failure raises an uncaught `ValueError`. -/
def pyIntField : Option String → Except PyErr (Option Int)
  | none => Except.ok none
  | some s =>
    if s == "" then Except.ok none
    else
      match pyInt? s with
      | some n => Except.ok (some n)
      | none => Except.error PyErr.valueError

/-! ## The metadata entity store

Rows of the Artist, Album, Genre and MetaData models (models.py lines
112-201), with Django's per-object primary keys drawn from a single explicit
counter. -/

structure ArtistRow where
  id : Nat
  name : String
  norm_name : String
deriving DecidableEq, Repr

structure AlbumRow where
  id : Nat
  name : String
  albumartist : Option Nat
deriving DecidableEq, Repr

structure GenreRow where
  id : Nat
  name : String
deriving DecidableEq, Repr

structure MetaDataRow where
  id : Nat
  track : Option Int
  track_total : Option Int
  title : Option String
  artist : Option Nat
  album : Option Nat
  year : Option Int
  genre : Option Nat
  duration : Option Rat
deriving DecidableEq, Repr

/-- The persisted entity tables. -/
structure MDB where
  artists : List ArtistRow
  albums : List AlbumRow
  genres : List GenreRow
  metadata : List MetaDataRow
  nextId : Nat
deriving DecidableEq, Repr

/-- `Artist.get_for_name` (models.py lines 125-138): `None` for a falsy or
normalizing-to-empty name, otherwise `get_or_create` keyed on the normalized
name; `Artist.save` (lines 119-123) recomputes `norm_name` from the display
name on creation. -/
def Artist.get_for_name (db : MDB) (name : Option String) : MDB × Option Nat :=
  match name with
  | none => (db, none)
  | some s =>
    if s == "" then (db, none)
    else
      let norm := normalize_name s
      if norm == "" then (db, none)
      else
        match db.artists.find? (fun a => a.norm_name == norm) with
        | some a => (db, some a.id)
        | none =>
          (MDB.mk (db.artists ++ [ArtistRow.mk db.nextId s (normalize_name s)])
            db.albums db.genres db.metadata (db.nextId + 1), some db.nextId)

/-- `Album.get_for_name` (models.py lines 151-153): `get_or_create` keyed on
the literal pair of name and album artist. -/
def Album.get_for_name (db : MDB) (album : String) (albumartist : Option Nat) : MDB × Nat :=
  match db.albums.find? (fun a => a.name == album && a.albumartist == albumartist) with
  | some a => (db, a.id)
  | none =>
    (MDB.mk db.artists (db.albums ++ [AlbumRow.mk db.nextId album albumartist])
      db.genres db.metadata (db.nextId + 1), db.nextId)

/-- `Genre.get_for_name` (models.py lines 163-165): `get_or_create` keyed on
the normalized name; `Genre.save` (lines 159-161) normalizes the stored name
again on creation. -/
def Genre.get_for_name (db : MDB) (genre : String) : MDB × Nat :=
  let key := normalize_name genre
  match db.genres.find? (fun g => g.name == key) with
  | some g => (db, g.id)
  | none =>
    (MDB.mk db.artists db.albums (db.genres ++ [GenreRow.mk db.nextId (normalize_name key)])
      db.metadata (db.nextId + 1), db.nextId)

/-- Modelled from the spec: the tag reader (`ext.tinytag`) is not part of the
two source files; section 6 specifies `readTags` as a black box that fails
with a tag-error kind on unreadable or corrupt input. -/
inductive TinyTagException where
  | unreadable
deriving DecidableEq, Repr

/-- Modelled from the spec: the field record produced by the black-box tag
reader (section 6): text fields, and `duration` read as float seconds
(represented exactly; the code only copies the value). -/
structure Tag where
  artist : Option String
  albumartist : Option String
  album : Option String
  genre : Option String
  title : Option String
  track : Option String
  track_total : Option String
  year : Option String
  duration : Option Rat
deriving DecidableEq, Repr

/-- The entity-resolution block of `MetaData.create_from_path` (models.py
lines 187-190): resolve the artist, the album artist, the album — only for a
truthy album name, with Python `albumartist or artist` as the album's artist
— and the genre — only for a truthy genre name.  Returns the store after
the insertions together with the resolved artist, album and genre ids. -/
def metadataEntities (db : MDB) (tag : Tag) : MDB × Option Nat × Option Nat × Option Nat :=
  let ra := Artist.get_for_name db tag.artist
  let rb := Artist.get_for_name ra.1 tag.albumartist
  let rc : MDB × Option Nat :=
    match tag.album with
    | none => (rb.1, none)
    | some al =>
      if al == "" then (rb.1, none)
      else
        let aa : Option Nat :=
          match rb.2 with
          | some x => some x
          | none => ra.2
        let g := Album.get_for_name rb.1 al aa
        (g.1, some g.2)
  let rd : MDB × Option Nat :=
    match tag.genre with
    | none => (rc.1, none)
    | some ge =>
      if ge == "" then (rc.1, none)
      else
        let g := Genre.get_for_name rc.1 ge
        (g.1, some g.2)
  (rd.1, ra.2, rc.2, rd.2)

/-- `MetaData.create_from_path` (models.py lines 181-201).  The argument is
the outcome of `TinyTag.get(path)`: the `try`/`except TinyTagException`
around it returns `None` with no row created.  On a successful read, the
entities are resolved first (lines 187-190), then the row is created with
`int(...)` parses of `track`, `track_total` and `year` evaluated in that
order (lines 191-200); a failed parse raises an uncaught `ValueError`,
after the entity rows have already been persisted. -/
def MetaData.create_from_path (db : MDB) (tagResult : Except TinyTagException Tag) :
    MDB × Except PyErr (Option Nat) :=
  match tagResult with
  | Except.error _ => (db, Except.ok none)
  | Except.ok tag =>
    let ent := metadataEntities db tag
    match pyIntField tag.track with
    | Except.error e => (ent.1, Except.error e)
    | Except.ok track =>
      match pyIntField tag.track_total with
      | Except.error e => (ent.1, Except.error e)
      | Except.ok track_total =>
        match pyIntField tag.year with
        | Except.error e => (ent.1, Except.error e)
        | Except.ok year =>
          let row := MetaDataRow.mk ent.1.nextId track track_total tag.title
            ent.2.1 ent.2.2.1 year ent.2.2.2 tag.duration
          (MDB.mk ent.1.artists ent.1.albums ent.1.genres (ent.1.metadata ++ [row])
            (ent.1.nextId + 1), Except.ok (some row.id))

/-! ## The filesystem

A live directory subtree: named subdirectory entries and file entries.
`Path.iterdir`, `Path.exists` and `Path.is_file` / `is_dir` queries of the
source become lookups in this tree; `Path.exists` is true for files and
directories alike. -/

mutual
inductive FSTree where
  | mk (subdirs : FSForest) (files : List String)
inductive FSForest where
  | nil
  | cons (name : String) (tree : FSTree) (rest : FSForest)
end

def FSTree.subdirs : FSTree → FSForest
  | FSTree.mk s _ => s

def FSTree.files : FSTree → List String
  | FSTree.mk _ f => f

/-- Look up a subdirectory entry by name. -/
def FSForest.get? : FSForest → String → Option FSTree
  | FSForest.nil, _ => none
  | FSForest.cons n t r, name => if n == name then some t else FSForest.get? r name

/-- Whether a subdirectory entry of that name is present. -/
def FSForest.hasName (f : FSForest) (name : String) : Bool :=
  (f.get? name).isSome

/-- `(<absolute path of this tree> / name).exists()`: a directory entry or a
file entry of that name is present. -/
def FSTree.hasEntry (t : FSTree) (name : String) : Bool :=
  t.files.any (fun f => f == name) || t.subdirs.hasName name

/-- The subtree at a named entry; a file entry or a missing entry has no
entries beneath it. -/
def FSTree.child (t : FSTree) (name : String) : FSTree :=
  (t.subdirs.get? name).getD (FSTree.mk FSForest.nil [])

/-- Descend along a relative path of segments. -/
def FSTree.descend : FSTree → List String → FSTree
  | t, [] => t
  | t, c :: p => (t.child c).descend p

/-! ## The directory index

Rows of the Directory and File models (models.py lines 13-15, 204-209):
`Directory.path` is a single segment, `Directory.parent` a nullable
self-reference, `File.directory` the owning directory.  Both foreign keys
are declared with `on_delete=models.PROTECT`. -/

structure DirRow where
  id : Nat
  parent : Option Nat
  path : String
deriving DecidableEq, Repr

structure FileRow where
  id : Nat
  filename : String
  directory : Nat
deriving DecidableEq, Repr

structure DB where
  dirs : List DirRow
  files : List FileRow
  nextId : Nat
deriving DecidableEq, Repr

/-- `Directory.objects.get(parent=..., path=...)` (first match). -/
def DB.findDir (db : DB) (parent : Option Nat) (path : String) : Option DirRow :=
  db.dirs.find? (fun r => r.parent == parent && r.path == path)

/-- `File.objects.get(filename=..., directory=...)` (first match). -/
def DB.findFile (db : DB) (directory : Nat) (filename : String) : Option FileRow :=
  db.files.find? (fun r => r.directory == directory && r.filename == filename)

/-- `Directory(parent=..., path=...).save()` on a fresh row; the new row's
primary key is `db.nextId`. -/
def DB.insertDir (db : DB) (parent : Option Nat) (path : String) : DB :=
  DB.mk (db.dirs ++ [DirRow.mk db.nextId parent path]) db.files (db.nextId + 1)

/-- `File(filename=..., directory=...).save()` on a fresh row. -/
def DB.insertFile (db : DB) (filename : String) (directory : Nat) : DB :=
  DB.mk db.dirs (db.files ++ [FileRow.mk db.nextId filename directory]) (db.nextId + 1)

/-- `File.delete()`. -/
def DB.eraseFile (db : DB) (id : Nat) : DB :=
  DB.mk db.dirs (db.files.filter (fun f => f.id != id)) db.nextId

/-- A Directory row is protected against deletion while a File row or a child
Directory row still references it (`on_delete=models.PROTECT` on
`File.directory` and `Directory.parent`, models.py lines 14 and 206). -/
def DB.dirProtected (db : DB) (id : Nat) : Bool :=
  db.files.any (fun f => f.directory == id) || db.dirs.any (fun r => r.parent == some id)

/-- `Directory.delete()` of an unprotected row. -/
def DB.eraseDir (db : DB) (id : Nat) : DB :=
  DB.mk (db.dirs.filter (fun r => r.id != id)) db.files db.nextId

/-- `Directory.objects.get_or_create(parent=self, path=name)`: existing row
id, or a freshly inserted one, with the created flag. -/
def DB.getOrCreateDir (db : DB) (self : Nat) (name : String) : DB × Nat × Bool :=
  match db.findDir (some self) name with
  | some r => (db, r.id, false)
  | none => (db.insertDir (some self) name, db.nextId, true)

/-- `File.indexable` (models.py lines 225-227):
`self.filename.lower().endswith(tuple(settings.SUPPORTED_FILETYPES))`.
The configured allow-list is the explicit `cfg` argument. -/
def File.indexable (cfg : List String) (filename : String) : Bool :=
  cfg.any (fun ext => pyEndsWith (pyLower filename) ext)

/-! ## The tree reconciler `Directory.reindex` (models.py lines 60-109) -/

/-- Errors the reconciler can raise: Django's `AttributeError` from accessing
an undeclared reverse accessor, and `ProtectedError` from deleting a
Directory row that is still referenced. -/
inductive DbError where
  | attributeError
  | protectedError
deriving DecidableEq, Repr

/-- The four counters returned by `reindex`, in source order:
`(deleted_files, deleted_directories, indexed_files, indexed_directories)`. -/
structure Cnt where
  deletedFiles : Nat
  deletedDirectories : Nat
  indexedFiles : Nat
  indexedDirectories : Nat
deriving DecidableEq, Repr

/-- Reverse accessors declared on `Directory` by the source's foreign keys:
`File.directory` has `related_name='files'` (models.py line 206) and
`Directory.parent` has `related_name='subdirectories'` (line 14).  Django
replaces the default `<model>_set` accessor with the declared name, so these
are the only relation attributes available on a `Directory` instance. -/
def directoryReverseAccessors : List String :=
  ["files", "subdirectories"]

/-- Stale-file pruning (models.py lines 66-70) over the File rows of `self`:
delete every row whose filesystem path no longer exists, counting
deletions.  `f.exists()` (line 235) is true when a directory entry or file
entry of that name is present. -/
def pruneFiles (t : FSTree) (db : DB) (self : Nat) : DB × Nat :=
  (db.files.filter (fun f => f.directory == self)).foldl
    (fun acc f =>
      if t.hasEntry f.filename then acc
      else (DB.eraseFile acc.1 f.id, acc.2 + 1))
    (db, 0)

/-- Stale-directory pruning (models.py lines 72-75) over a snapshot of the
child Directory rows of `self`: delete every row whose filesystem path no
longer exists.  A delete of a row still referenced by File rows or child
Directory rows raises `ProtectedError` (the PROTECT rule on both foreign
keys), aborting the run. -/
def pruneDirsAux (t : FSTree) : List DirRow → DB → Nat → DB × Except DbError Nat
  | [], db, n => (db, Except.ok n)
  | d :: rest, db, n =>
    if t.hasEntry d.path then pruneDirsAux t rest db n
    else if DB.dirProtected db d.id then (db, Except.error DbError.protectedError)
    else pruneDirsAux t rest (DB.eraseDir db d.id) (n + 1)

/-- File indexing during the scan (models.py lines 78-87): for every file
entry, if indexable and not already present as a File row (matched by
filename and directory), create and persist it, counting insertions. -/
def indexFilesFold (cfg : List String) (fils : List String) (db : DB) (self : Nat) : DB × Nat :=
  fils.foldl
    (fun acc name =>
      if File.indexable cfg name then
        match DB.findFile acc.1 self name with
        | some _ => acc
        | none => (DB.insertFile acc.1 name self, acc.2 + 1)
      else acc)
    (db, 0)

mutual
/-- The body of `Directory.reindex` (models.py lines 60-109) run at a node
whose live subtree is `t`, with the stale-file loop reading the File rows of
`self` (the relation `self.file_set.all()` on line 66 is meant to denote;
the declared accessor is `files`): prune stale files, prune stale
subdirectories, then scan the live entries, indexing new files and
directories and recursing into every subdirectory entry when `recursively`
is set (inner calls use the default, `recursively=True`). -/
def Directory.reindexTree (cfg : List String) (recursively : Bool) :
    FSTree → DB → Nat → DB × Except DbError Cnt
  | FSTree.mk subs fils, db, self =>
    let p1 := pruneFiles (FSTree.mk subs fils) db self
    match pruneDirsAux (FSTree.mk subs fils) (p1.1.dirs.filter (fun d => d.parent == some self)) p1.1 0 with
    | (db2, Except.error e) => (db2, Except.error e)
    | (db2, Except.ok delD) =>
      let p3 := indexFilesFold cfg fils db2 self
      match Directory.reindexForest cfg recursively subs p3.1 self with
      | (db4, Except.error e) => (db4, Except.error e)
      | (db4, Except.ok sub) =>
        (db4, Except.ok (Cnt.mk (p1.2 + sub.deletedFiles) (delD + sub.deletedDirectories)
          (p3.2 + sub.indexedFiles) sub.indexedDirectories))

/-- The subdirectory arm of the scan (models.py lines 88-101): skip a `.`
entry, `get_or_create` the child row (counting creations), and when
`recursively` is set recurse into the child immediately, folding its four
counters into the running totals; an exception from the recursion
propagates. -/
def Directory.reindexForest (cfg : List String) (recursively : Bool) :
    FSForest → DB → Nat → DB × Except DbError Cnt
  | FSForest.nil, db, _ => (db, Except.ok (Cnt.mk 0 0 0 0))
  | FSForest.cons name sub rest, db, self =>
    if name == "." then Directory.reindexForest cfg recursively rest db self
    else
      let g := DB.getOrCreateDir db self name
      let created : Nat := if g.2.2 then 1 else 0
      if recursively then
        match Directory.reindexTree cfg recursively sub g.1 g.2.1 with
        | (db2, Except.error e) => (db2, Except.error e)
        | (db2, Except.ok c1) =>
          match Directory.reindexForest cfg recursively rest db2 self with
          | (db3, Except.error e) => (db3, Except.error e)
          | (db3, Except.ok c2) =>
            (db3, Except.ok (Cnt.mk (c1.deletedFiles + c2.deletedFiles)
              (c1.deletedDirectories + c2.deletedDirectories)
              (c1.indexedFiles + c2.indexedFiles)
              (created + (c1.indexedDirectories + c2.indexedDirectories))))
      else
        match Directory.reindexForest cfg recursively rest g.1 self with
        | (db2, Except.error e) => (db2, Except.error e)
        | (db2, Except.ok c2) =>
          (db2, Except.ok (Cnt.mk c2.deletedFiles c2.deletedDirectories c2.indexedFiles
            (created + c2.indexedDirectories)))
end

/-- `Directory.reindex` (models.py lines 60-109) as executed: its first
statement, `for f in self.file_set.all():` (line 66), resolves the attribute
`file_set` on the Directory instance.  `File.directory` declares
`related_name='files'` (line 206), so Django exposes the reverse relation as
`files` and no `file_set` attribute exists: the access raises
`AttributeError` before any row is read or written.  The algorithm the body
expresses is `Directory.reindexTree`. -/
def Directory.reindex (cfg : List String) (t : FSTree) (recursively : Bool)
    (db : DB) (self : Nat) : DB × Except DbError Cnt :=
  if directoryReverseAccessors.contains ("file_set") then
    Directory.reindexTree cfg recursively t db self
  else
    (db, Except.error DbError.attributeError)

/-! ## The lazy path resolver `Directory.get_sub_path_directories`
(models.py lines 34-49) -/

/-- Errors of path resolution: `FileNotFoundError` raised on line 45 when a
segment absent from the index has no existing filesystem path, and the
`ValueError` Python unpacking raises on an empty segment list (line 35). -/
inductive PathErr where
  | valueError
  | fileNotFound
deriving DecidableEq, Repr

/-- One segment step (models.py lines 36-45): look the child up by exact
segment text; if absent, construct an unsaved candidate, and persist it only
if its filesystem path exists — otherwise raise `FileNotFoundError`,
discarding the candidate. -/
def Directory.subPathStep (t : FSTree) (db : DB) (self : Nat) (current : String) :
    Except PathErr (DB × Nat) :=
  match db.findDir (some self) current with
  | some r => Except.ok (db, r.id)
  | none =>
    if t.hasEntry current then Except.ok (db.insertDir (some self) current, db.nextId)
    else Except.error PathErr.fileNotFound

/-- `Directory.get_sub_path_directories` (models.py lines 34-49) run at a
node whose live subtree is `t`: resolve the segments in order, returning the
chain of row ids root-to-leaf.  The returned `DB` is the state after the
call even when an exception is raised (earlier saves are not rolled back). -/
def Directory.get_sub_path_directories :
    FSTree → DB → Nat → List String → DB × Except PathErr (List Nat)
  | _, db, _, [] => (db, Except.error PathErr.valueError)
  | t, db, self, current :: rest =>
    match Directory.subPathStep t db self current with
    | Except.error e => (db, Except.error e)
    | Except.ok (db1, id) =>
      match rest with
      | [] => (db1, Except.ok [id])
      | _ :: _ =>
        match Directory.get_sub_path_directories (t.child current) db1 id rest with
        | (db2, Except.ok ids) => (db2, Except.ok (id :: ids))
        | (db2, Except.error e) => (db2, Except.error e)

/-! ## The artwork fallback chain `AlbumArtView.get` (views.py lines 156-200)

Paths are lists of segments rooted at the library base directory.  The
collaborators the view calls — the tag reader, `AlbumArtFetcher`, the cache
path derivation and the configuration flag — are outside the two source
files and are modelled from the specification as an explicit environment. -/

/-- Collapse `.` and `..` segments the way the operating system resolves a
path (the view appends a literal `'..'` segment on line 169). -/
def normalizeSegs (p : List String) : List String :=
  p.foldl
    (fun acc seg =>
      if seg == ".." then acc.dropLast
      else if seg == "." then acc
      else acc ++ [seg])
    []

/-- Modelled from the spec: `core.pathprovider.albumArtFilePath` is not part
of the two source files; section 6 specifies it as a pure function mapping a
filesystem path to a cache file path, used identically by the read and the
write steps.  Section 4.6 describes the retargeted path as the parent
directory itself, so the derivation is modelled on the resolved path: the
code's `path/'..'` form and the parent directory derive the same cache
file. -/
def albumArtFilePath (p : List String) : List String :=
  "albumart-cache" :: normalizeSegs p

/-- The sources the view consults, in the order it consults them; recorded
by the embedding so that short-circuiting is observable. -/
inductive ArtEffect where
  | tagRead
  | cacheRead
  | localScan
  | onlineFetch
  | cacheWrite (path : List String) (data : List Nat)
deriving DecidableEq, Repr

/-- Outcomes of the view: DRF `NotFound` (line 160), the uncaught
`TinyTagException` from `TinyTag.get` (line 164), and `Http404`
(line 200). -/
inductive ArtErr where
  | notFound
  | tagError
  | http404
deriving DecidableEq, Repr

/-- Modelled from the spec: the collaborators of the artwork view.
`tagImage` is the black-box tag reader opened with `image=True`
(tag-error on unreadable input, otherwise an optional embedded image);
`fetchLocal` and `fetchOnline` are the black-box
`AlbumArtFetcher.fetchLocal` / `fetch` of section 6; `fetchAlbumArt` is the
`media.fetch_album_art` configuration flag; `cache` is the on-disk artwork
cache contents, keyed by cache path; `pathExists` / `isFile` are the
filesystem queries (resolving `..` as the operating system does). -/
structure ArtEnv where
  pathExists : List String → Bool
  isFile : List String → Bool
  tagImage : List String → Except TinyTagException (Option (List Nat))
  fetchLocal : List String → Option String × List Nat × Bool
  fetchOnline : String → Except Unit (Option String × List Nat)
  fetchAlbumArt : Bool
  cache : List String → Option (List Nat)

/-- Result of a view invocation: response or error, cache contents
afterwards, and the sources consulted in order. -/
structure ArtOutcome where
  result : Except ArtErr (List Nat)
  cache : List String → Option (List Nat)
  trace : List ArtEffect

/-- Write one cache file. -/
def cacheWriteFn (cache : List String → Option (List Nat)) (key : List String)
    (data : List Nat) : List String → Option (List Nat) :=
  fun k => if k == key then some data else cache k

/-- Steps 2-4 of the chain (views.py lines 171-200), from the possibly
retargeted `file_path`: cached bytes verbatim if the derived cache file
exists; otherwise a local folder scan, writing the resized bytes back to the
cache before returning them; otherwise, when enabled, an online fetch keyed
on the basename, caching unconditionally, with any failure swallowed; and
finally `Http404`. -/
def albumArtFromPath (env : ArtEnv) (file_path : List String) (trace : List ArtEffect) :
    ArtOutcome :=
  let cachePath := albumArtFilePath file_path
  match env.cache cachePath with
  | some b => ArtOutcome.mk (Except.ok b) env.cache (trace ++ [ArtEffect.cacheRead])
  | none =>
    let trace := trace ++ [ArtEffect.cacheRead, ArtEffect.localScan]
    match env.fetchLocal file_path with
    | (some _, data, resized) =>
      if resized then
        ArtOutcome.mk (Except.ok data) (cacheWriteFn env.cache cachePath data)
          (trace ++ [ArtEffect.cacheWrite cachePath data])
      else
        ArtOutcome.mk (Except.ok data) env.cache trace
    | (none, _, _) =>
      if env.fetchAlbumArt then
        let keywords := (file_path.getLast?).getD ""
        match env.fetchOnline keywords with
        | Except.error _ =>
          ArtOutcome.mk (Except.error ArtErr.http404) env.cache (trace ++ [ArtEffect.onlineFetch])
        | Except.ok (some _, data) =>
          ArtOutcome.mk (Except.ok data) (cacheWriteFn env.cache cachePath data)
            (trace ++ [ArtEffect.onlineFetch, ArtEffect.cacheWrite cachePath data])
        | Except.ok (none, _) =>
          ArtOutcome.mk (Except.error ArtErr.http404) env.cache (trace ++ [ArtEffect.onlineFetch])
      else
        ArtOutcome.mk (Except.error ArtErr.http404) env.cache trace
/-- `AlbumArtView.get` (views.py lines 156-200).  `file_path` is the base
directory joined with the request path (line 158); a missing path is
`NotFound` (line 160).  For a regular file the embedded image is read first
— `TinyTag.get(str(file_path), image=True)` on line 164 is not wrapped in
any `try`, so a tag error propagates — an embedded image is returned
uncached, and otherwise the path is retargeted by appending `'..'`
(line 169) before continuing with the cache / local / online chain. -/
def AlbumArtView.get (env : ArtEnv) (basedir : List String) (path : List String) :
    ArtOutcome :=
  let file_path := basedir ++ path
  if env.pathExists file_path then
    if env.isFile file_path then
      match env.tagImage file_path with
      | Except.error _ =>
        ArtOutcome.mk (Except.error ArtErr.tagError) env.cache [ArtEffect.tagRead]
      | Except.ok (some img) =>
        ArtOutcome.mk (Except.ok img) env.cache [ArtEffect.tagRead]
      | Except.ok none =>
        albumArtFromPath env (file_path ++ [".."]) [ArtEffect.tagRead]
    else
      albumArtFromPath env file_path []
  else
    ArtOutcome.mk (Except.error ArtErr.notFound) env.cache []

/-! ## Fixtures for the concrete reconciler runs -/

/-- The spec's example allow-list of audio extensions. -/
def supportedFiletypes : List String :=
  ["mp3", "ogg", "flac"]

/-- An index holding only the base directory. -/
def dbRootOnly : DB :=
  DB.mk [DirRow.mk 0 none ("lib")] [] 1

/-- A live tree: a file `a.mp3` and a subdirectory `Sub` holding `b.mp3`. -/
def fsTwoLevels : FSTree :=
  FSTree.mk (FSForest.cons ("Sub") (FSTree.mk FSForest.nil [("b.mp3")]) FSForest.nil)
    [("a.mp3")]

/-- An index where the previously indexed subdirectory `gone` (with an
indexed file `x.mp3` of its own) has been fully removed from disk. -/
def dbStaleChild : DB :=
  DB.mk [DirRow.mk 0 none ("lib"), DirRow.mk 1 (some 0) ("gone")]
    [FileRow.mk 2 ("x.mp3") 1] 3

/-- The base directory now empty on disk. -/
def fsRootEmpty : FSTree :=
  FSTree.mk FSForest.nil []

/-- A live tree holding `cover.jpg` and `track.flac`. -/
def fsCoverFlac : FSTree :=
  FSTree.mk FSForest.nil [("cover.jpg"), ("track.flac")]

/-- Claim C1 (code bug): reconciliation cannot return the claimed
second-run counters because `Directory.reindex` raises before reading a
single row: its first statement accesses `self.file_set` (models.py
line 66) while the reverse accessor declared by `File.directory` is
`files` (line 206), so every run — first or second — ends in
`AttributeError` with the index unchanged.  The algorithm the body
expresses (`Directory.reindexTree`) is idempotent exactly as the spec
states: on this two-level tree a first run indexes two files and one
directory, and a second run over the resulting index returns
`(0, 0, 0, 0)` and leaves the rows identical. -/
theorem c1_reindex_idempotence_code_bug :
    Directory.reindex supportedFiletypes fsTwoLevels true dbRootOnly 0
      = (dbRootOnly, Except.error DbError.attributeError)
    ∧ (Directory.reindexTree supportedFiletypes true fsTwoLevels dbRootOnly 0).2
      = Except.ok (Cnt.mk 0 0 2 1)
    ∧ Directory.reindexTree supportedFiletypes true fsTwoLevels
        (Directory.reindexTree supportedFiletypes true fsTwoLevels dbRootOnly 0).1 0
      = ((Directory.reindexTree supportedFiletypes true fsTwoLevels dbRootOnly 0).1,
          Except.ok (Cnt.mk 0 0 0 0)) :=
  ⟨rfl, rfl, rfl⟩

/-- Claim C4 (code bug): reconcile does not tolerate a fully removed
subdirectory that still has indexed rows of its own.  As executed,
`Directory.reindex` raises `AttributeError` at its first statement (see
`Directory.reindex`); and even the algorithm its body expresses aborts on
this input with `ProtectedError`: the stale row `gone` still owns the File
row `x.mp3`, and both foreign keys onto Directory carry
`on_delete=models.PROTECT` (models.py lines 14, 206), so the deletion on
line 74 is refused and no stale row is deleted — the ordering hazard the
spec's section 9 itself identifies. -/
theorem c4_reindex_stale_subdir_code_bug :
    Directory.reindex supportedFiletypes fsRootEmpty true dbStaleChild 0
      = (dbStaleChild, Except.error DbError.attributeError)
    ∧ Directory.reindexTree supportedFiletypes true fsRootEmpty dbStaleChild 0
      = (dbStaleChild, Except.error DbError.protectedError) :=
  ⟨rfl, rfl⟩

/-- Claim C10 (code bug): the indexability filter itself behaves exactly as
claimed — `cover.jpg` fails the allow-list, `track.flac` passes it, and the
scan of the algorithm creates a File row for `track.flac` only — but during
an actual reconcile no File row is ever created, because
`Directory.reindex` raises `AttributeError` at its first statement (see
`Directory.reindex`) before the scan is reached, so the claimed creation of
a `track.flac` row does not happen. -/
theorem c10_indexability_filter_code_bug :
    File.indexable supportedFiletypes ("cover.jpg") = false
    ∧ File.indexable supportedFiletypes ("track.flac") = true
    ∧ Directory.reindex supportedFiletypes fsCoverFlac true dbRootOnly 0
      = (dbRootOnly, Except.error DbError.attributeError)
    ∧ dbRootOnly.files = []
    ∧ Directory.reindexTree supportedFiletypes true fsCoverFlac dbRootOnly 0
      = (DB.mk [DirRow.mk 0 none ("lib")] [FileRow.mk 1 ("track.flac") 0] 2,
          Except.ok (Cnt.mk 0 0 1 0)) :=
  ⟨rfl, rfl, rfl, rfl, rfl⟩

/-- Claim C7: extraction is null-safe — when the tag read fails with a tag
error, `MetaData.create_from_path` returns `None`, surfaces no exception,
and creates no MetaData, Artist, Album or Genre row (the store is returned
unchanged): the `try`/`except TinyTagException` on models.py lines 183-186
returns before any entity is resolved. -/
theorem c7_extract_null_safety (db : MDB) (e : TinyTagException) :
    MetaData.create_from_path db (Except.error e) = (db, Except.ok none) :=
  rfl

/-- A tag whose `track` field is the common disc notation `3/12`: non-empty,
hence truthy, but not parsable by `int(...)`. -/
def tagBadTrack : Tag :=
  Tag.mk none none none none none (some ("3/12")) none none none

/-- Claim C6, counterexample: the numeric fields are not left unset on an
unparsable value — `int(tag.track)` on models.py line 192 sits outside any
`try`, so a tag whose `track` reads `"3/12"` makes extraction surface an
uncaught `ValueError` instead of storing `None`. -/
theorem c6_unparsable_track_counterexample :
    MetaData.create_from_path (MDB.mk [] [] [] [] 0) (Except.ok tagBadTrack)
      = (MDB.mk [] [] [] [] 0, Except.error PyErr.valueError) :=
  rfl

/-- Claim C2: with an existing regular file carrying no embedded art, a miss
at the derived cache path, and a successful local folder scan, the chain
consults the tag, the cache and the local scan in that order, short-circuits
there (the online fetch is never consulted), returns the scanned bytes, and
the derived cache file holds the returned bytes afterwards exactly when the
local result needed resizing. -/
theorem c2_artwork_fallback_order (env : ArtEnv) (basedir path : List String)
    (hdr : String) (dat : List Nat) (resized : Bool)
    (hex : env.pathExists (basedir ++ path) = true)
    (hfile : env.isFile (basedir ++ path) = true)
    (htag : env.tagImage (basedir ++ path) = Except.ok none)
    (hmiss : env.cache (albumArtFilePath ((basedir ++ path) ++ [".."])) = none)
    (hlocal : env.fetchLocal ((basedir ++ path) ++ [".."]) = (some hdr, dat, resized)) :
    (AlbumArtView.get env basedir path).result = Except.ok dat
    ∧ ((AlbumArtView.get env basedir path).cache
        (albumArtFilePath ((basedir ++ path) ++ [".."]))
        = if resized then some dat else none)
    ∧ (AlbumArtView.get env basedir path).trace
        = [ArtEffect.tagRead, ArtEffect.cacheRead, ArtEffect.localScan]
          ++ (if resized then
                [ArtEffect.cacheWrite (albumArtFilePath ((basedir ++ path) ++ [".."])) dat]
              else [])
    ∧ ArtEffect.onlineFetch ∉ (AlbumArtView.get env basedir path).trace := by
  simp only [List.append_assoc] at hmiss hlocal
  simp only [AlbumArtView.get, albumArtFromPath, hex, hfile, htag, hmiss, hlocal, if_true,
    List.append_assoc]
  cases resized <;> simp [cacheWriteFn, hmiss]

/-- The spec's concrete artwork scenario: `/lib/Album` holds `track.mp3`
(readable tags, no embedded image) and a `cover.jpg` the local scan finds
and resizes; the cache starts empty and online fetching is disabled. -/
def artEnvScenario : ArtEnv :=
  ArtEnv.mk
    (fun p => p == ["lib", "Album", "track.mp3"])
    (fun p => p == ["lib", "Album", "track.mp3"])
    (fun p =>
      if p == ["lib", "Album", "track.mp3"] then Except.ok none
      else Except.error TinyTagException.unreadable)
    (fun p =>
      if p == ["lib", "Album", "track.mp3", ".."] then (some ("image/jpeg"), [7, 7, 7], true)
      else (none, [], false))
    (fun _ => Except.error ())
    false
    (fun _ => none)

/-- Witness for claim C2: the scenario instantiated — the request for
`Album/track.mp3` under base `lib` returns the scanned bytes, the derived
cache file now holds them (the scan resized), and the online fetch was
never consulted. -/
theorem c2_artwork_fallback_order_witness :
    (AlbumArtView.get artEnvScenario ["lib"] ["Album", "track.mp3"]).result
      = Except.ok [7, 7, 7]
    ∧ (AlbumArtView.get artEnvScenario ["lib"] ["Album", "track.mp3"]).cache
        (albumArtFilePath ["lib", "Album"])
      = some [7, 7, 7]
    ∧ (AlbumArtView.get artEnvScenario ["lib"] ["Album", "track.mp3"]).trace
      = [ArtEffect.tagRead, ArtEffect.cacheRead, ArtEffect.localScan,
          ArtEffect.cacheWrite (albumArtFilePath ["lib", "Album"]) [7, 7, 7]]
    ∧ ArtEffect.onlineFetch ∉ (AlbumArtView.get artEnvScenario ["lib"] ["Album", "track.mp3"]).trace :=
  c2_artwork_fallback_order artEnvScenario ["lib"] ["Album", "track.mp3"]
    ("image/jpeg") [7, 7, 7] true rfl rfl rfl rfl rfl

/-- Claim C3: when the cache location derived from the retargeted path
already holds bytes, the chain returns them verbatim right after the tag
read and the cache read — the local scan and the online fetch are never
consulted and the cache is left untouched. -/
theorem c3_cache_short_circuit (env : ArtEnv) (basedir path : List String) (B : List Nat)
    (hex : env.pathExists (basedir ++ path) = true)
    (hfile : env.isFile (basedir ++ path) = true)
    (htag : env.tagImage (basedir ++ path) = Except.ok none)
    (hhit : env.cache (albumArtFilePath ((basedir ++ path) ++ [".."])) = some B) :
    (AlbumArtView.get env basedir path).result = Except.ok B
    ∧ (AlbumArtView.get env basedir path).cache = env.cache
    ∧ (AlbumArtView.get env basedir path).trace = [ArtEffect.tagRead, ArtEffect.cacheRead]
    ∧ ArtEffect.localScan ∉ (AlbumArtView.get env basedir path).trace
    ∧ ArtEffect.onlineFetch ∉ (AlbumArtView.get env basedir path).trace := by
  simp only [List.append_assoc] at hhit
  simp [AlbumArtView.get, albumArtFromPath, hex, hfile, htag, hhit]

/-- The cache-hit scenario: same file as `artEnvScenario`, but the cache
path for `/lib/Album` is pre-populated with arbitrary bytes `[9, 9]`, and
both fetchers would succeed if consulted. -/
def artEnvCached : ArtEnv :=
  ArtEnv.mk
    (fun p => p == ["lib", "Album", "track.mp3"])
    (fun p => p == ["lib", "Album", "track.mp3"])
    (fun p =>
      if p == ["lib", "Album", "track.mp3"] then Except.ok none
      else Except.error TinyTagException.unreadable)
    (fun _ => (some ("image/jpeg"), [1, 1], true))
    (fun _ => Except.ok (some ("h"), [2, 2]))
    true
    (fun k => if k == albumArtFilePath ["lib", "Album"] then some [9, 9] else none)

/-- Witness for claim C3: with the cache path for `/lib/Album`
pre-populated with `[9, 9]`, the request for `Album/track.mp3` returns
exactly those bytes without consulting the local scan or the online
fetch. -/
theorem c3_cache_short_circuit_witness :
    (AlbumArtView.get artEnvCached ["lib"] ["Album", "track.mp3"]).result = Except.ok [9, 9]
    ∧ (AlbumArtView.get artEnvCached ["lib"] ["Album", "track.mp3"]).cache = artEnvCached.cache
    ∧ (AlbumArtView.get artEnvCached ["lib"] ["Album", "track.mp3"]).trace
      = [ArtEffect.tagRead, ArtEffect.cacheRead]
    ∧ ArtEffect.localScan ∉ (AlbumArtView.get artEnvCached ["lib"] ["Album", "track.mp3"]).trace
    ∧ ArtEffect.onlineFetch ∉ (AlbumArtView.get artEnvCached ["lib"] ["Album", "track.mp3"]).trace :=
  c3_cache_short_circuit artEnvCached ["lib"] ["Album", "track.mp3"] [9, 9] rfl rfl rfl rfl

/-- A regular file whose tag data is unreadable; the local scan and the
online fetch would both succeed if the chain continued. -/
def artEnvBadTags : ArtEnv :=
  ArtEnv.mk
    (fun p => p == ["lib", "Album", "track.mp3"])
    (fun p => p == ["lib", "Album", "track.mp3"])
    (fun _ => Except.error TinyTagException.unreadable)
    (fun _ => (some ("image/jpeg"), [1], false))
    (fun _ => Except.ok (some ("h"), [2]))
    true
    (fun _ => none)

/-- Claim C9, counterexample: on a regular file with unreadable tags the
view does not treat the failure as "no data" and continue — `TinyTag.get`
on views.py line 164 is not wrapped in any `try`, so the tag error surfaces
and the chain stops after the tag read, even though the local scan and the
online fetch of this environment would have succeeded. -/
theorem c9_tag_error_counterexample :
    (AlbumArtView.get artEnvBadTags ["lib"] ["Album", "track.mp3"]).result
      = Except.error ArtErr.tagError
    ∧ (AlbumArtView.get artEnvBadTags ["lib"] ["Album", "track.mp3"]).trace
      = [ArtEffect.tagRead] :=
  ⟨rfl, rfl⟩

/-- Claim C9, amended: a tag-read failure on a regular file propagates out
of artwork resolution (only metadata extraction treats it as "no data");
the fallback chain continues past the embedded-image check only when the
tag read succeeds with no image.  On any environment and path where the
file exists and the tag read fails, the outcome is the tag error, the cache
is untouched, and no further source is consulted. -/
theorem c9_tag_error_amended (env : ArtEnv) (basedir path : List String)
    (e : TinyTagException)
    (hex : env.pathExists (basedir ++ path) = true)
    (hfile : env.isFile (basedir ++ path) = true)
    (htag : env.tagImage (basedir ++ path) = Except.error e) :
    AlbumArtView.get env basedir path
      = ArtOutcome.mk (Except.error ArtErr.tagError) env.cache [ArtEffect.tagRead] := by
  simp [AlbumArtView.get, hex, hfile, htag]

/-- Witness for the amended claim C9, at the unreadable-tags
environment. -/
theorem c9_tag_error_amended_witness :
    AlbumArtView.get artEnvBadTags ["lib"] ["Album", "track.mp3"]
      = ArtOutcome.mk (Except.error ArtErr.tagError) artEnvBadTags.cache [ArtEffect.tagRead] :=
  c9_tag_error_amended artEnvBadTags ["lib"] ["Album", "track.mp3"]
    TinyTagException.unreadable rfl rfl rfl

/-- Claim C8: `Artist.get_for_name` returns `None` whenever the name is
empty or normalizes to empty; otherwise, when no Artist with the normalized
key exists yet, the first call appends exactly one row (keyed by the
normalized name, carrying the given display name) and returns its id, and a
second call with the same name finds that row — same identity, no second
insert, store unchanged. -/
theorem c8_artist_dedup (db : MDB) (s : String) :
    ((s = "" ∨ normalize_name s = "") → Artist.get_for_name db (some s) = (db, none))
    ∧ (s ≠ "" → normalize_name s ≠ "" →
        db.artists.find? (fun a => a.norm_name == normalize_name s) = none →
        Artist.get_for_name db (some s)
          = (MDB.mk (db.artists ++ [ArtistRow.mk db.nextId s (normalize_name s)])
              db.albums db.genres db.metadata (db.nextId + 1), some db.nextId)
        ∧ Artist.get_for_name
            (MDB.mk (db.artists ++ [ArtistRow.mk db.nextId s (normalize_name s)])
              db.albums db.genres db.metadata (db.nextId + 1)) (some s)
          = (MDB.mk (db.artists ++ [ArtistRow.mk db.nextId s (normalize_name s)])
              db.albums db.genres db.metadata (db.nextId + 1), some db.nextId)) := by
  constructor
  · intro h
    rcases h with h | h
    · simp [Artist.get_for_name, h]
    · by_cases hs : s = ""
      · simp [Artist.get_for_name, hs]
      · simp [Artist.get_for_name, hs, h]
  · intro hs hn hfind
    constructor
    · simp [Artist.get_for_name, hs, hn, hfind]
    · have hrow : (fun a => a.norm_name == normalize_name s)
          (ArtistRow.mk db.nextId s (normalize_name s)) = true := by simp
      simp [Artist.get_for_name, hs, hn, List.find?_append, hfind, List.find?_cons_of_pos _ hrow]

/-- Witness for claim C8: two successive calls for the name `Radiohead` on
an empty store — the first inserts the single row, the second returns the
same identity over the unchanged store. -/
theorem c8_artist_dedup_witness :
    Artist.get_for_name (MDB.mk [] [] [] [] 0) (some ("Radiohead"))
      = (MDB.mk [ArtistRow.mk 0 ("Radiohead") (normalize_name ("Radiohead"))] [] [] [] 1,
          some 0)
    ∧ Artist.get_for_name
        (MDB.mk [ArtistRow.mk 0 ("Radiohead") (normalize_name ("Radiohead"))] [] [] [] 1)
        (some ("Radiohead"))
      = (MDB.mk [ArtistRow.mk 0 ("Radiohead") (normalize_name ("Radiohead"))] [] [] [] 1,
          some 0) :=
  (c8_artist_dedup (MDB.mk [] [] [] [] 0) ("Radiohead")).2 (by decide) (by decide) rfl

/-- Claim C6, amended: whenever the three numeric tag fields are parsable
by the falsy-guarded `int(...)` translation (`pyIntField`: absent or empty
gives `None`, otherwise the Python integer parse), extraction stores
exactly those parse results in the created row, stores `title` and
`duration` verbatim as read, appends exactly one MetaData row after the
entity insertions, and surfaces no exception; a non-empty unparsable value
instead raises an uncaught `ValueError` (see the counterexample). -/
theorem c6_numeric_fields_amended (db : MDB) (tag : Tag) (a b c : Option Int)
    (ht : pyIntField tag.track = Except.ok a)
    (htt : pyIntField tag.track_total = Except.ok b)
    (hy : pyIntField tag.year = Except.ok c) :
    MetaData.create_from_path db (Except.ok tag)
      = (MDB.mk (metadataEntities db tag).1.artists (metadataEntities db tag).1.albums
          (metadataEntities db tag).1.genres
          ((metadataEntities db tag).1.metadata
            ++ [MetaDataRow.mk (metadataEntities db tag).1.nextId a b tag.title
                (metadataEntities db tag).2.1 (metadataEntities db tag).2.2.1 c
                (metadataEntities db tag).2.2.2 tag.duration])
          ((metadataEntities db tag).1.nextId + 1),
          Except.ok (some (metadataEntities db tag).1.nextId)) := by
  simp only [MetaData.create_from_path, ht, htt, hy]

/-- A tag with parsable numeric fields: `track` reads `"7"`, `track_total`
is absent, `year` reads `" 1999 "`. -/
def tagParsable : Tag :=
  Tag.mk none none none none (some ("T")) (some ("7")) none (some (" 1999 ")) (some 200)

/-- Witness for the amended claim C6: on an empty store, extraction with
the parsable tag stores track `7`, no total, year `1999`, the title and the
duration as read. -/
theorem c6_numeric_fields_amended_witness :
    MetaData.create_from_path (MDB.mk [] [] [] [] 0) (Except.ok tagParsable)
      = (MDB.mk [] [] [] [MetaDataRow.mk 0 (some 7) none (some ("T")) none none
          (some 1999) none (some 200)] 1, Except.ok (some 0)) :=
  c6_numeric_fields_amended (MDB.mk [] [] [] [] 0) tagParsable (some 7) none (some 1999)
    rfl rfl rfl

/-! ## Resolution leaves no row for a nonexistent segment (claim C5) -/

/-- A chain of Directory rows recorded in the index from `self` down to the
row with id `id`, spelling the relative segments `p`. -/
inductive DB.PathTo (db : DB) (self : Nat) : Nat → List String → Prop where
  | refl : DB.PathTo db self self []
  | step {q : Nat} {p : List String} {r : DirRow} :
      DB.PathTo db self q p → r ∈ db.dirs → r.parent = some q →
      DB.PathTo db self r.id (p ++ [r.path])

theorem DB.PathTo.mono {db db' : DB} {self i : Nat} {p : List String}
    (h : DB.PathTo db self i p) (hsub : ∀ r, r ∈ db.dirs → r ∈ db'.dirs) :
    DB.PathTo db' self i p := by
  induction h with
  | refl => exact DB.PathTo.refl
  | step h1 h2 h3 ih => exact DB.PathTo.step ih (hsub _ h2) h3

theorem DB.PathTo.trans {db : DB} {self q i : Nat} {p1 p2 : List String}
    (h1 : DB.PathTo db self q p1) (h2 : DB.PathTo db q i p2) :
    DB.PathTo db self i (p1 ++ p2) := by
  induction h2 with
  | refl => simpa using h1
  | step g1 g2 g3 ih =>
    rw [← List.append_assoc]
    exact DB.PathTo.step ih g2 g3

/-- The only exception a non-empty resolution step raises is
`FileNotFoundError`. -/
theorem subPathStep_error (t : FSTree) (db : DB) (self : Nat) (cur : String)
    (e : PathErr) (h : Directory.subPathStep t db self cur = Except.error e) :
    e = PathErr.fileNotFound := by
  unfold Directory.subPathStep at h
  cases hfind : db.findDir (some self) cur with
  | some r => rw [hfind] at h; exact absurd h (by simp)
  | none =>
    rw [hfind] at h
    by_cases he : t.hasEntry cur = true
    · simp [he] at h
    · simp only [he, if_neg, if_false, Bool.false_eq_true, reduceIte] at h
      exact (Except.error.injEq _ _).mp h.symm

/-- Shape of a successful resolution step: either an existing row was found
(index unchanged), or the segment's filesystem path exists and exactly the
one verified candidate was persisted. -/
theorem subPathStep_ok (t : FSTree) (db : DB) (self : Nat) (cur : String)
    (db1 : DB) (id : Nat)
    (h : Directory.subPathStep t db self cur = Except.ok (db1, id)) :
    (∃ r, r ∈ db.dirs ∧ r.parent = some self ∧ r.path = cur ∧ r.id = id ∧ db1 = db)
    ∨ (t.hasEntry cur = true ∧ db1 = db.insertDir (some self) cur ∧ id = db.nextId) := by
  unfold Directory.subPathStep at h
  cases hfind : db.findDir (some self) cur with
  | some r =>
    rw [hfind] at h
    have hpred := List.find?_some hfind
    have hmem := List.mem_of_find?_eq_some hfind
    simp only [Bool.and_eq_true, beq_iff_eq] at hpred
    have h2 := (Except.ok.injEq _ _).mp h
    exact Or.inl ⟨r, hmem, hpred.1, hpred.2,
      congrArg Prod.snd h2, (congrArg Prod.fst h2).symm⟩
  | none =>
    rw [hfind] at h
    by_cases he : t.hasEntry cur = true
    · simp only [he, if_true, reduceIte] at h
      have h2 := (Except.ok.injEq _ _).mp h
      exact Or.inr ⟨he, (congrArg Prod.fst h2).symm, (congrArg Prod.snd h2).symm⟩
    · simp [he] at h

/-- Unfolding of resolution at a single final segment. -/
theorem get_sub_path_directories_one (t : FSTree) (db : DB) (self : Nat)
    (current : String) :
    Directory.get_sub_path_directories t db self [current]
      = match Directory.subPathStep t db self current with
        | Except.error e => (db, Except.error e)
        | Except.ok (db1, id) => (db1, Except.ok [id]) :=
  rfl

/-- Unfolding of resolution at two or more segments. -/
theorem get_sub_path_directories_cons (t : FSTree) (db : DB) (self : Nat)
    (current e2 : String) (rest2 : List String) :
    Directory.get_sub_path_directories t db self (current :: e2 :: rest2)
      = match Directory.subPathStep t db self current with
        | Except.error e => (db, Except.error e)
        | Except.ok (db1, id) =>
          match Directory.get_sub_path_directories (t.child current) db1 id (e2 :: rest2) with
          | (db2, Except.ok ids) => (db2, Except.ok (id :: ids))
          | (db2, Except.error e) => (db2, Except.error e) :=
  rfl

/-- Resolution never removes a row from the index. -/
theorem get_sub_path_directories_mono (elems : List String) :
    ∀ (t : FSTree) (db : DB) (self : Nat) (r : DirRow), r ∈ db.dirs →
      r ∈ (Directory.get_sub_path_directories t db self elems).1.dirs := by
  induction elems with
  | nil => intro t db self r hr; exact hr
  | cons current rest ih =>
    intro t db self r hr
    cases hstep : Directory.subPathStep t db self current with
    | error e =>
      cases rest with
      | nil => rw [get_sub_path_directories_one, hstep]; exact hr
      | cons e2 rest2 => rw [get_sub_path_directories_cons, hstep]; exact hr
    | ok pr =>
      obtain ⟨db1, id⟩ := pr
      have hr1 : r ∈ db1.dirs := by
        rcases subPathStep_ok t db self current db1 id hstep with
          ⟨_, _, _, _, _, hdb⟩ | ⟨_, hdb, _⟩
        · rw [hdb]; exact hr
        · rw [hdb]; simp [DB.insertDir]; exact Or.inl hr
      cases rest with
      | nil => rw [get_sub_path_directories_one, hstep]; exact hr1
      | cons e2 rest2 =>
        have hrec := ih (t.child current) db1 id r hr1
        cases hres : Directory.get_sub_path_directories (t.child current) db1 id (e2 :: rest2) with
        | mk db2 res2 =>
          rw [hres] at hrec
          rw [get_sub_path_directories_cons, hstep]
          show r ∈ (match Directory.get_sub_path_directories (t.child current) db1 id (e2 :: rest2) with
            | (d2, Except.ok ids) => (d2, Except.ok (id :: ids))
            | (d2, Except.error e) => (d2, Except.error e)).1.dirs
          rw [hres]
          cases res2 with
          | ok ids => exact hrec
          | error e => exact hrec


/-- Facts shared by both shapes of a successful step: every row of the
resulting index is an old row or the verified candidate for `cur`, and the
resulting index holds a row with id `id`, parent `self` and segment
`cur`. -/
theorem subPathStep_ok_facts (t : FSTree) (db : DB) (self : Nat) (cur : String)
    (db1 : DB) (id : Nat)
    (h : Directory.subPathStep t db self cur = Except.ok (db1, id)) :
    (∀ r, r ∈ db1.dirs →
      r ∈ db.dirs ∨ (r.id = id ∧ r.parent = some self ∧ r.path = cur ∧ t.hasEntry cur = true))
    ∧ (∃ rid, rid ∈ db1.dirs ∧ rid.id = id ∧ rid.parent = some self ∧ rid.path = cur) := by
  rcases subPathStep_ok t db self cur db1 id h with
    ⟨r0, hmem, hpar, hpath, hid, hdb⟩ | ⟨hent, hdb, hid⟩
  · subst hdb
    exact ⟨fun r hr => Or.inl hr, ⟨r0, hmem, hid, hpar, hpath⟩⟩
  · subst hdb
    subst hid
    constructor
    · intro r hr
      have hr' : r ∈ db.dirs ∨ r = DirRow.mk db.nextId (some self) cur := by
        simpa [DB.insertDir] using hr
      rcases hr' with h1 | h1
      · exact Or.inl h1
      · subst h1
        exact Or.inr ⟨rfl, rfl, rfl, hent⟩
    · refine ⟨DirRow.mk db.nextId (some self) cur, ?_, rfl, rfl, rfl⟩
      simp [DB.insertDir]

/-- Induction core for claim C5, over the segment list: errors of a
non-empty resolution are `FileNotFoundError`, and every row of the resulting
index is an old row or lies on a recorded chain from `self` whose relative
path exists on the live subtree. -/
theorem get_sub_path_directories_sound (elems : List String) :
    ∀ (t : FSTree) (db : DB) (self : Nat),
    (elems ≠ [] → ∀ e, (Directory.get_sub_path_directories t db self elems).2 = Except.error e →
      e = PathErr.fileNotFound)
    ∧ (∀ r, r ∈ (Directory.get_sub_path_directories t db self elems).1.dirs →
      r ∈ db.dirs
      ∨ ∃ p seg,
          DB.PathTo (Directory.get_sub_path_directories t db self elems).1 self r.id (p ++ [seg])
          ∧ (t.descend p).hasEntry seg = true) := by
  induction elems with
  | nil =>
    intro t db self
    exact ⟨fun h => absurd rfl h, fun r hr => Or.inl hr⟩
  | cons current rest ih =>
    intro t db self
    cases hstep : Directory.subPathStep t db self current with
    | error e0 =>
      have hval : Directory.get_sub_path_directories t db self (current :: rest)
          = (db, Except.error e0) := by
        cases rest with
        | nil => rw [get_sub_path_directories_one, hstep]
        | cons e2 rest2 => rw [get_sub_path_directories_cons, hstep]
      rw [hval]
      constructor
      · intro _ e he
        have he0 : e0 = e := by simpa using he
        rw [← he0]
        exact subPathStep_error t db self current e0 hstep
      · intro r hr
        exact Or.inl hr
    | ok pr =>
      obtain ⟨db1, id⟩ := pr
      obtain ⟨hA, rid, hridmem, hridid, hridpar, hridpath⟩ :=
        subPathStep_ok_facts t db self current db1 id hstep
      cases rest with
      | nil =>
        have hval : Directory.get_sub_path_directories t db self [current]
            = (db1, Except.ok [id]) := by
          rw [get_sub_path_directories_one, hstep]
        rw [hval]
        constructor
        · intro _ e he
          exact absurd he (by simp)
        · intro r hr
          rcases hA r hr with h1 | ⟨hid2, hpar2, hpath2, hent2⟩
          · exact Or.inl h1
          · right
            refine ⟨[], current, ?_, hent2⟩
            have hp := DB.PathTo.step (DB.PathTo.refl) hr hpar2
            rw [hpath2] at hp
            exact hp
      | cons e2 rest2 =>
        have ihcall := ih (t.child current) db1 id
        cases hres : Directory.get_sub_path_directories (t.child current) db1 id (e2 :: rest2) with
        | mk db2 res2 =>
          rw [hres] at ihcall
          have hmono12 : ∀ r, r ∈ db1.dirs → r ∈ db2.dirs := by
            intro r hr
            have hm := get_sub_path_directories_mono (e2 :: rest2) (t.child current) db1 id r hr
            rw [hres] at hm
            exact hm
          have hrows : ∀ r, r ∈ db2.dirs →
              r ∈ db.dirs
              ∨ ∃ p seg, DB.PathTo db2 self r.id (p ++ [seg])
                  ∧ (t.descend p).hasEntry seg = true := by
            intro r hr
            rcases ihcall.2 r hr with h1 | ⟨p, seg, hchain, hentp⟩
            · rcases hA r h1 with h2 | ⟨hid2, hpar2, hpath2, hent2⟩
              · exact Or.inl h2
              · right
                refine ⟨[], current, ?_, hent2⟩
                have hp := DB.PathTo.step (DB.PathTo.refl) (hmono12 r h1) hpar2
                rw [hpath2] at hp
                exact hp
            · right
              have hstep1 : DB.PathTo db2 self id ([] ++ [current]) := by
                have hp := DB.PathTo.step (DB.PathTo.refl) (hmono12 rid hridmem) hridpar
                rw [hridpath, hridid] at hp
                exact hp
              have hfull := DB.PathTo.trans hstep1 hchain
              exact ⟨current :: p, seg, by simpa using hfull, hentp⟩
          cases res2 with
          | ok ids =>
            have hval : Directory.get_sub_path_directories t db self (current :: e2 :: rest2)
                = (db2, Except.ok (id :: ids)) := by
              rw [get_sub_path_directories_cons, hstep]
              show (match Directory.get_sub_path_directories (t.child current) db1 id (e2 :: rest2) with
                | (d2, Except.ok ids2) => (d2, Except.ok (id :: ids2))
                | (d2, Except.error e) => (d2, Except.error e)) = _
              rw [hres]
            rw [hval]
            exact ⟨fun _ e he => absurd he (by simp), fun r hr => hrows r hr⟩
          | error e1 =>
            have hval : Directory.get_sub_path_directories t db self (current :: e2 :: rest2)
                = (db2, Except.error e1) := by
              rw [get_sub_path_directories_cons, hstep]
              show (match Directory.get_sub_path_directories (t.child current) db1 id (e2 :: rest2) with
                | (d2, Except.ok ids2) => (d2, Except.ok (id :: ids2))
                | (d2, Except.error e) => (d2, Except.error e)) = _
              rw [hres]
            rw [hval]
            refine ⟨?_, fun r hr => hrows r hr⟩
            intro _ e he
            have he1 : e1 = e := by simpa using he
            rw [← he1]
            exact ihcall.1 (by simp) e1 rfl

/-- Claim C5: path resolution fails atomically per segment — a non-empty
resolution only ever fails with `FileNotFoundError`, and every Directory row
present after the call (success or failure) is either a pre-existing row or
a row on a recorded chain below the starting node whose relative filesystem
path exists on the live subtree; in particular no row is ever persisted for
a nonexistent segment, the unsaved candidate being discarded when the
existence check fails. -/
theorem c5_path_resolution_atomic (t : FSTree) (db : DB) (self : Nat)
    (elems : List String) (hne : elems ≠ []) :
    (∀ e, (Directory.get_sub_path_directories t db self elems).2 = Except.error e →
      e = PathErr.fileNotFound)
    ∧ (∀ r, r ∈ (Directory.get_sub_path_directories t db self elems).1.dirs →
      r ∈ db.dirs
      ∨ ∃ p seg,
          DB.PathTo (Directory.get_sub_path_directories t db self elems).1 self r.id (p ++ [seg])
          ∧ (t.descend p).hasEntry seg = true) :=
  ⟨(get_sub_path_directories_sound elems t db self).1 hne,
    (get_sub_path_directories_sound elems t db self).2⟩

/-- Witness for claim C5: the spec's scenario — resolving
`["Does", "Not", "Exist"]` against a tree with no such entries fails with
`FileNotFoundError` and leaves the index exactly as it was. -/
theorem c5_path_resolution_atomic_witness :
    Directory.get_sub_path_directories fsTwoLevels dbRootOnly 0 ["Does", "Not", "Exist"]
      = (dbRootOnly, Except.error PathErr.fileNotFound)
    ∧ (∀ e,
        (Directory.get_sub_path_directories fsTwoLevels dbRootOnly 0 ["Does", "Not", "Exist"]).2
          = Except.error e → e = PathErr.fileNotFound) :=
  ⟨rfl,
    (c5_path_resolution_atomic fsTwoLevels dbRootOnly 0 (["Does", "Not", "Exist"])
      (by decide)).1⟩
